import Mathlib

/-
Verification development for django-cache-utils.

The development shallowly embeds the two source modules that the claims
concern:

* `cache_utils/utils.py` — `CONTROL_CHARACTERS`, `PREFIX`,
  `sanitize_memcached_key`, `serialize` (which is `smart_text`, i.e.
  Python `str()`), together with a faithful executable MD5 (the digest is
  the actual return value of the sanitizer on the over-length path).
* `cache_utils/decorators.py` — `default_key`, `_get_key`, and the five
  closures `wrapper`, `invalidate`, `force_recalc`, `require_cache`,
  `get_cache_key` produced by the `cached` decorator, together with
  `NoCachedValueException`.

Machine integers of the MD5 core are `Nat` with explicit reduction
modulo 2^32.  The cache backend (Django's memcached wrapper) is modelled
as an association list from key strings to (value, timeout) pairs, with
`get` returning the Python `None` sentinel on a missing key, exactly the
interface the decorator code consumes.

Note on `sanitize_memcached_key`: on any interpreter where
`django.utils.encoding.force_bytes` imports (every Python 3 deployment),
the over-length branch executes `return md5(force_bytes(key)).hexdigest()`
and the subsequent line `key = key[:max_length - 33] + '-' + hash` is
unreachable.  The embedding follows that live path.
-/

/-! ### Bytes and hexadecimal rendering -/

/-- The sixteen lowercase hexadecimal digit characters: the ten decimal
digits (code points 48-57) then the letters a-f (code points 97-102). -/
def hexDigits : List Char :=
  (List.range 10).map (fun i => Char.ofNat (48 + i)) ++
    (List.range 6).map (fun i => Char.ofNat (97 + i))

/-- Hexadecimal digit character for `n % 16`. -/
def hexDigitChar (n : Nat) : Char :=
  hexDigits.getD (n % 16) (Char.ofNat 48)

/-- The two hexadecimal characters of a byte, as produced by Python's
`%02x` formatting inside `hexdigest`. -/
def byteHexChars (b : Nat) : List Char :=
  [hexDigitChar (b / 16), hexDigitChar b]

/-- UTF-8 encoding of one character, as a list of byte values
(`force_bytes` encodes the key with UTF-8 before hashing). -/
def utf8Bytes (c : Char) : List Nat :=
  let n := c.toNat
  if n < 128 then [n]
  else if n < 2048 then [192 + n / 64, 128 + n % 64]
  else if n < 65536 then [224 + n / 4096, 128 + (n / 64) % 64, 128 + n % 64]
  else [240 + n / 262144, 128 + (n / 4096) % 64, 128 + (n / 64) % 64, 128 + n % 64]

/-- UTF-8 encoding of a string as a byte list (`force_bytes`). -/
def strUtf8 (s : String) : List Nat :=
  (s.toList.map utf8Bytes).flatten

/-! ### MD5 (RFC 1321), on `Nat` reduced mod 2^32 -/

/-- Addition modulo 2^32. -/
def add32 (a b : Nat) : Nat := (a + b) % 4294967296

/-- Bitwise complement inside 32 bits. -/
def not32 (x : Nat) : Nat := Nat.xor 4294967295 x

/-- Left rotation of a 32-bit word by `s` places. -/
def rotl32 (x s : Nat) : Nat :=
  ((x * 2 ^ s) % 4294967296) + x / 2 ^ (32 - s)

/-- The 64 sine-derived round constants of MD5. -/
def md5K : List Nat :=
  [3614090360, 3905402710, 606105819, 3250441966, 4118548399, 1200080426,
   2821735955, 4249261313, 1770035416, 2336552879, 4294925233, 2304563134,
   1804603682, 4254626195, 2792965006, 1236535329, 4129170786, 3225465664,
   643717713, 3921069994, 3593408605, 38016083, 3634488961, 3889429448,
   568446438, 3275163606, 4107603335, 1163531501, 2850285829, 4243563512,
   1735328473, 2368359562, 4294588738, 2272392833, 1839030562, 4259657740,
   2763975236, 1272893353, 4139469664, 3200236656, 681279174, 3936430074,
   3572445317, 76029189, 3654602809, 3873151461, 530742520, 3299628645,
   4096336452, 1126891415, 2878612391, 4237533241, 1700485571, 2399980690,
   4293915773, 2240044497, 1873313359, 4264355552, 2734768916, 1309151649,
   4149444226, 3174756917, 718787259, 3951481745]

/-- The 64 per-round rotation amounts of MD5. -/
def md5S : List Nat :=
  [7, 12, 17, 22, 7, 12, 17, 22, 7, 12, 17, 22, 7, 12, 17, 22,
   5, 9, 14, 20, 5, 9, 14, 20, 5, 9, 14, 20, 5, 9, 14, 20,
   4, 11, 16, 23, 4, 11, 16, 23, 4, 11, 16, 23, 4, 11, 16, 23,
   6, 10, 15, 21, 6, 10, 15, 21, 6, 10, 15, 21, 6, 10, 15, 21]

/-- The four-word MD5 working state. -/
structure MD5State where
  a : Nat
  b : Nat
  c : Nat
  d : Nat

/-- The standard MD5 initial state. -/
def md5Init : MD5State :=
  ⟨1732584193, 4023233417, 2562383102, 271733878⟩

/-- The nonlinear mixing function of round `i`. -/
def md5F (i b c d : Nat) : Nat :=
  if i < 16 then Nat.lor (Nat.land b c) (Nat.land (not32 b) d)
  else if i < 32 then Nat.lor (Nat.land d b) (Nat.land (not32 d) c)
  else if i < 48 then Nat.xor b (Nat.xor c d)
  else Nat.xor c (Nat.lor b (not32 d))

/-- The message-word schedule index of round `i`. -/
def md5G (i : Nat) : Nat :=
  if i < 16 then i
  else if i < 32 then (5 * i + 1) % 16
  else if i < 48 then (3 * i + 5) % 16
  else (7 * i) % 16

/-- One MD5 round on schedule `M`. -/
def md5Round (M : List Nat) (st : MD5State) (i : Nat) : MD5State :=
  let f := md5F i st.b st.c st.d
  let tmp := add32 st.a (add32 f (add32 (md5K.getD i 0) (M.getD (md5G i) 0)))
  ⟨st.d, add32 st.b (rotl32 tmp (md5S.getD i 0)), st.b, st.c⟩

/-- Process one 64-byte chunk: build the 16 little-endian words, run 64
rounds, and add the result into the incoming state. -/
def md5Chunk (st : MD5State) (chunk : List Nat) : MD5State :=
  let M := (List.range 16).map (fun j =>
    chunk.getD (4 * j) 0 + 256 * chunk.getD (4 * j + 1) 0 +
      65536 * chunk.getD (4 * j + 2) 0 + 16777216 * chunk.getD (4 * j + 3) 0)
  let r := (List.range 64).foldl (md5Round M) st
  ⟨add32 st.a r.a, add32 st.b r.b, add32 st.c r.c, add32 st.d r.d⟩

/-- MD5 padding for a message of `len` bytes: a 0x80 byte, zeros to 56 mod
64, then the bit length as eight little-endian bytes. -/
def md5Padding (len : Nat) : List Nat :=
  let zeros := (119 - len % 64) % 64
  let bitLen := (8 * len) % 18446744073709551616
  128 :: List.replicate zeros 0 ++
    (List.range 8).map (fun j => bitLen / 2 ^ (8 * j) % 256)

/-- Full MD5 state after consuming a padded byte message. -/
def md5Digest (msg : List Nat) : MD5State :=
  let padded := msg ++ md5Padding msg.length
  (List.range (padded.length / 64)).foldl
    (fun st i => md5Chunk st ((padded.drop (64 * i)).take 64)) md5Init

/-- The sixteen digest bytes, little-endian per word. -/
def word4 (w : Nat) : List Nat :=
  [w % 256, w / 256 % 256, w / 65536 % 256, w / 16777216 % 256]

/-- MD5 digest of a byte message as sixteen bytes. -/
def md5Bytes (msg : List Nat) : List Nat :=
  let st := md5Digest msg
  word4 st.a ++ word4 st.b ++ word4 st.c ++ word4 st.d

/-- Python `md5(...).hexdigest()`: the 32-character lowercase hexadecimal form. -/
def md5hex (msg : List Nat) : String :=
  String.mk (((md5Bytes msg).map byteHexChars).flatten)

/-! ### `cache_utils.utils` -/

/-- Source `CONTROL_CHARACTERS = set([chr(i) for i in range(0, 33)])` plus
`chr(127)`, from `cache_utils/utils.py`. -/
def CONTROL_CHARACTERS : List Char :=
  ((List.range 33).map Char.ofNat) ++ [Char.ofNat 127]

/-- The first statement of `sanitize_memcached_key`:
`''.join([c for c in key if c not in CONTROL_CHARACTERS])`. -/
def filter_control (key : String) : String :=
  String.mk (key.toList.filter (fun c => !(CONTROL_CHARACTERS.contains c)))

/-- Function `sanitize_memcached_key(key, max_length=250)` from
`cache_utils/utils.py`, on the live (`force_bytes` importable) path:
control characters are removed and, when the filtered key is longer than
`max_length`, the function returns `md5(force_bytes(key)).hexdigest()`. -/
def sanitize_memcached_key (key : String) (max_length : Nat) : String :=
  let key := filter_control key
  if max_length < key.length then md5hex (strUtf8 key) else key

/-! ### Python values and their textual form

Arguments of a wrapped callable and cached results are Python values.
`serialize` in `cache_utils/utils.py` is `smart_text(value)`, i.e. CPython
`str(value)`; the model below renders values exactly as CPython 3 does
(dictionary keys of keyword-argument dictionaries are strings). -/

mutual
inductive PyVal where
  | none : PyVal
  | bool (b : Bool) : PyVal
  | int (n : Int) : PyVal
  | str (s : String) : PyVal
  | tuple (xs : PyList) : PyVal
  | dict (xs : PyDict) : PyVal
inductive PyList where
  | nil : PyList
  | cons (x : PyVal) (xs : PyList) : PyList
inductive PyDict where
  | nil : PyDict
  | cons (k : String) (v : PyVal) (xs : PyDict) : PyDict
end

/-- The single-quote character. -/
def squote : Char := Char.ofNat 39

/-- The double-quote character. -/
def dquote : Char := Char.ofNat 34

/-- The backslash character. -/
def bslash : Char := Char.ofNat 92

/-- CPython `repr` escaping of one string character under quote `q`
(ASCII escapes; printable characters pass through unchanged). -/
def pyCharEscape (q c : Char) : List Char :=
  if c == bslash then [bslash, bslash]
  else if c == q then [bslash, q]
  else if c.toNat == 10 then [bslash, Char.ofNat 110]
  else if c.toNat == 13 then [bslash, Char.ofNat 114]
  else if c.toNat == 9 then [bslash, Char.ofNat 116]
  else if c.toNat < 32 || c.toNat == 127 then
    [bslash, Char.ofNat 120] ++ byteHexChars c.toNat
  else [c]

/-- CPython `repr` of a string: single quotes, unless the content holds a
single quote and no double quote. -/
def pyStrRepr (s : String) : String :=
  let q := if s.toList.contains squote && !(s.toList.contains dquote)
    then dquote else squote
  String.mk (q :: (s.toList.map (pyCharEscape q)).flatten ++ [q])

/-- CPython `str` of an integer. -/
def intStr : Int → String
  | Int.ofNat m => Nat.repr m
  | Int.negSucc m => "-" ++ Nat.repr (m + 1)

mutual
/-- CPython `repr` of a value. -/
def pyRepr : PyVal → String
  | PyVal.none => "None"
  | PyVal.bool true => "True"
  | PyVal.bool false => "False"
  | PyVal.int n => intStr n
  | PyVal.str s => pyStrRepr s
  | PyVal.tuple PyList.nil => "()"
  | PyVal.tuple (PyList.cons x PyList.nil) => "(" ++ pyRepr x ++ ",)"
  | PyVal.tuple (PyList.cons x xs) => "(" ++ pyRepr x ++ pyReprRest xs ++ ")"
  | PyVal.dict d => "\x7b" ++ pyReprDict d ++ "\x7d"
/-- The `", elem"` continuation of a tuple rendering. -/
def pyReprRest : PyList → String
  | PyList.nil => ""
  | PyList.cons x xs => ", " ++ pyRepr x ++ pyReprRest xs
/-- The comma-separated `key: value` items of a dictionary rendering. -/
def pyReprDict : PyDict → String
  | PyDict.nil => ""
  | PyDict.cons k v PyDict.nil => pyStrRepr k ++ ": " ++ pyRepr v
  | PyDict.cons k v xs => pyStrRepr k ++ ": " ++ pyRepr v ++ ", " ++ pyReprDict xs
end

/-- CPython `str` of a value: the identity on strings, `repr` otherwise. -/
def pyStr : PyVal → String
  | PyVal.str s => s
  | v => pyRepr v

/-- Source `serialize(value) = smart_text(value)` from `cache_utils/utils.py`. -/
def serialize (v : PyVal) : String := pyStr v

/-! ### `cache_utils.decorators`

`cached(timeout, group=None, backend=None, fn_key=default_fn_key,
key=default_key)` resolves at wrap time `fn_key_str = str(fn_key(func))`
(or `str(fn_key)` for a literal) and closes over `timeout`, the argument
key function `key`, and the wrapped callable `func`.  A `CachedConfig`
records exactly this wrap-time data; the claims concern the no-group
configuration, where `backend_kwargs` is empty and the backend is the
plain key-value store.  The wrapped callable is modelled with an explicit
call state `σ` (e.g. a call counter), threaded through invocations. -/

/-- Literal `PREFIX = '[cached]'` from `cache_utils/utils.py`. -/
def PREFIX : String := "[cached]"

/-- Source `default_key(*args, **kwargs) = (args, kwargs)` from
`cache_utils/decorators.py`. -/
def default_key (args : PyList) (kwargs : PyDict) : PyVal :=
  PyVal.tuple (PyList.cons (PyVal.tuple args)
    (PyList.cons (PyVal.dict kwargs) PyList.nil))

/-- The wrap-time data a `cached(...)` closure captures: the TTL, the
resolved function identity string, the argument-key function and the
wrapped callable (with its call state `σ`). -/
structure CachedConfig (σ : Type) where
  timeout : Nat
  fn_key_str : String
  key : PyList → PyDict → PyVal
  func : σ → PyList → PyDict → PyVal × σ

/-- Key derivation `_get_key(*args, **kwargs)` from `cache_utils/decorators.py`:
`sanitize_memcached_key('%s%s(%s)' % (PREFIX, fn_key_str, args_str))`
with `args_str = serialize(key(*args, **kwargs))`. -/
def _get_key (fn_key_str : String) (key : PyList → PyDict → PyVal)
    (args : PyList) (kwargs : PyDict) : String :=
  sanitize_memcached_key
    ( PREFIX ++ fn_key_str ++ "(" ++ serialize (key args kwargs) ++ ")") 250

/-- The no-group Django cache backend: an association list from key
strings to (value, timeout) pairs. -/
structure CacheBackend where
  store : List (String × PyVal × Nat)

/-- Backend read `cache_backend.get(key)`: Django's `cache.get` returns `None` when no
entry is present, so a missing key yields the `None` sentinel. -/
def CacheBackend.get (b : CacheBackend) (k : String) : PyVal :=
  match b.store.find? (fun e => e.1 == k) with
  | Option.some e => e.2.1
  | Option.none => PyVal.none

/-- Backend write `cache_backend.set(key, value, timeout)`. -/
def CacheBackend.set (b : CacheBackend) (k : String) (v : PyVal)
    (timeout : Nat) : CacheBackend :=
  ⟨(k, v, timeout) :: b.store.filter (fun e => !(e.1 == k))⟩

/-- Backend delete `cache_backend.delete(key)`. -/
def CacheBackend.delete (b : CacheBackend) (k : String) : CacheBackend :=
  ⟨b.store.filter (fun e => !(e.1 == k))⟩

/-- The Python `value is None` test of the wrapper's miss branch. -/
def isNone : PyVal → Bool
  | PyVal.none => true
  | _ => false

/-- Python truthiness, the `if not value` test of `require_cache`. -/
def pyTruthy : PyVal → Bool
  | PyVal.none => false
  | PyVal.bool b => b
  | PyVal.int n => !(n == 0)
  | PyVal.str s => !(s == "")
  | PyVal.tuple PyList.nil => false
  | PyVal.tuple (PyList.cons _ _) => true
  | PyVal.dict PyDict.nil => false
  | PyVal.dict (PyDict.cons _ _ _) => true

/-- Exception `NoCachedValueException` from `cache_utils/decorators.py`. -/
inductive NoCachedValueException where
  | mk : NoCachedValueException
deriving DecidableEq

/-- Introspection `get_cache_key(*args, **kwargs)`: returns the key `_get_key` derives,
without touching the backend. -/
def get_cache_key {σ : Type} (cfg : CachedConfig σ)
    (args : PyList) (kwargs : PyDict) : String :=
  _get_key cfg.fn_key_str cfg.key args kwargs

/-- The memoizing `wrapper(*args, **kwargs)`: compute the key, read the
backend; `if value is None` invoke the callable and store the result with
the wrap-time timeout, else return the cached value. -/
def wrapper {σ : Type} (cfg : CachedConfig σ) (b : CacheBackend) (s : σ)
    (args : PyList) (kwargs : PyDict) : PyVal × CacheBackend × σ :=
  let key := _get_key cfg.fn_key_str cfg.key args kwargs
  let value := b.get key
  if isNone value then
    let r := cfg.func s args kwargs
    (r.1, b.set key r.1 cfg.timeout, r.2)
  else
    (value, b, s)

/-- Operation `invalidate(*args, **kwargs)`: delete the entry under the
derived key. -/
def invalidate {σ : Type} (cfg : CachedConfig σ) (b : CacheBackend)
    (args : PyList) (kwargs : PyDict) : CacheBackend :=
  b.delete (_get_key cfg.fn_key_str cfg.key args kwargs)

/-- Operation `force_recalc(*args, **kwargs)`: always invoke the callable and store
the fresh value under the derived key. -/
def force_recalc {σ : Type} (cfg : CachedConfig σ) (b : CacheBackend)
    (s : σ) (args : PyList) (kwargs : PyDict) : PyVal × CacheBackend × σ :=
  let key := _get_key cfg.fn_key_str cfg.key args kwargs
  let r := cfg.func s args kwargs
  (r.1, b.set key r.1 cfg.timeout, r.2)

/-- Operation `require_cache(*args, **kwargs)`: read the backend and, `if not
value`, raise `NoCachedValueException`; otherwise return the value.  The
body never references the wrapped callable. -/
def require_cache {σ : Type} (cfg : CachedConfig σ) (b : CacheBackend)
    (args : PyList) (kwargs : PyDict) : Except NoCachedValueException PyVal :=
  let key := _get_key cfg.fn_key_str cfg.key args kwargs
  let value := b.get key
  if pyTruthy value then Except.ok value else Except.error NoCachedValueException.mk

/-! ### Helper lemmas -/

theorem byteHexChars_length (b : Nat) : (byteHexChars b).length = 2 := rfl

theorem flatten_byteHexChars_length (l : List Nat) :
    ((l.map byteHexChars).flatten).length = 2 * l.length := by
  induction l with
  | nil => rfl
  | cons x xs ih =>
      simp only [List.map_cons, List.flatten_cons, List.length_append,
        byteHexChars_length, ih, List.length_cons]
      omega

theorem md5Bytes_length (msg : List Nat) : (md5Bytes msg).length = 16 := by
  simp [md5Bytes, word4]

/-- The hexdigest always renders 32 characters. -/
theorem md5hex_length (msg : List Nat) : (md5hex msg).length = 32 := by
  show (((md5Bytes msg).map byteHexChars).flatten).length = 32
  rw [flatten_byteHexChars_length, md5Bytes_length]

theorem hexDigitChar_mem (n : Nat) : hexDigitChar n ∈ hexDigits := by
  have h : n % 16 < hexDigits.length := Nat.mod_lt _ (by decide)
  rw [hexDigitChar, List.getD_eq_getElem _ _ h]
  exact List.getElem_mem h

theorem hexDigits_not_control : ∀ c ∈ hexDigits, 32 < c.toNat ∧ c.toNat ≠ 127 := by
  decide

theorem md5hex_chars (msg : List Nat) (c : Char) :
    c ∈ (md5hex msg).toList → c ∈ hexDigits := by
  intro hc
  have h : c ∈ ((md5Bytes msg).map byteHexChars).flatten := hc
  rw [List.mem_flatten] at h
  obtain ⟨l, hl, hcl⟩ := h
  rw [List.mem_map] at hl
  obtain ⟨b, _, rfl⟩ := hl
  simp only [byteHexChars, List.mem_cons, List.mem_singleton] at hcl
  rcases hcl with h | h | h
  · exact h ▸ hexDigitChar_mem _
  · exact h ▸ hexDigitChar_mem _
  · exact absurd h (List.not_mem_nil c)

theorem ctrl_mem (c : Char) (h : c.toNat ≤ 32 ∨ c.toNat = 127) :
    c ∈ CONTROL_CHARACTERS := by
  rw [CONTROL_CHARACTERS, List.mem_append]
  rcases h with h | h
  · left
    rw [List.mem_map]
    exact ⟨c.toNat, List.mem_range.mpr (by omega), Char.ofNat_toNat c⟩
  · right
    have hc : c = Char.ofNat 127 := by rw [← h, Char.ofNat_toNat]
    simp [hc]

theorem find?_filter_none (l : List (String × PyVal × Nat)) (k : String) :
    List.find? (fun e => e.1 == k) (List.filter (fun e => !(e.1 == k)) l) =
      Option.none := by
  induction l with
  | nil => rfl
  | cons x xs ih =>
      cases hx : x.1 == k with
      | true => simp [List.filter_cons, hx, ih]
      | false => simp [List.filter_cons, List.find?_cons, hx, ih]

theorem CacheBackend.get_delete_self (b : CacheBackend) (k : String) :
    (b.delete k).get k = PyVal.none := by
  show (match List.find? (fun e => e.1 == k)
      (List.filter (fun e => !(e.1 == k)) b.store) with
    | Option.some e => e.2.1
    | Option.none => PyVal.none) = PyVal.none
  rw [find?_filter_none]

theorem CacheBackend.get_set_self (b : CacheBackend) (k : String) (v : PyVal)
    (t : Nat) : (b.set k v t).get k = v := by
  simp [CacheBackend.get, CacheBackend.set, List.find?_cons]

theorem isNone_eq_true_iff (v : PyVal) : isNone v = true ↔ v = PyVal.none := by
  cases v <;> simp [isNone]

/-! ### Concrete instances used by the claims -/

/-- A 50-digit key, longer than a 40-character limit after filtering. -/
def longKey50 : String := "12345678901234567890123456789012345678901234567890"

/-- Its md5 hexdigest (the value `hashlib.md5` produces). -/
def digest50 : String := "fb46ea63c015ee690bd3f2e50a461296"

/-- A 12-character key, longer than a 10-character limit. -/
def shortKey12 : String := "0123456789ab"

/-- A short control-free input for sanitize witnesses. -/
def abcStr : String := "abc"

/-- A one-character input for the purity witness. -/
def aKey : String := "a"

/-- The resolved function identity used by the scenario configuration. -/
def myFuncName : String := "my_func"

/-- The test-suite counter callable: `call_count += 1; return call_count`,
with the counter as call state. -/
def counterFunc : Nat → PyList → PyDict → PyVal × Nat :=
  fun s _ _ => (PyVal.int (Int.ofNat (s + 1)), s + 1)

/-- Configuration `@cached(60)` around the counter callable: timeout 60, no group,
default identity and argument-key strategies. -/
def scenarioCfg : CachedConfig Nat :=
  ⟨60, myFuncName, default_key, counterFunc⟩

/-- The positional arguments `(1, 2)`. -/
def argsA : PyList :=
  PyList.cons (PyVal.int 1) (PyList.cons (PyVal.int 2) PyList.nil)

/-- The positional arguments `(3, 2)`. -/
def argsB : PyList :=
  PyList.cons (PyVal.int 3) (PyList.cons (PyVal.int 2) PyList.nil)

/-- The flushed cache the scenario starts from. -/
def emptyBackend : CacheBackend := ⟨[]⟩

/-- Scenario step: first `f(1,2)`. -/
def c1step1 : PyVal × CacheBackend × Nat :=
  wrapper scenarioCfg emptyBackend 0 argsA PyDict.nil

/-- Scenario step: second `f(1,2)`. -/
def c1step2 : PyVal × CacheBackend × Nat :=
  wrapper scenarioCfg c1step1.2.1 c1step1.2.2 argsA PyDict.nil

/-- Scenario step: first `f(3,2)`. -/
def c1step3 : PyVal × CacheBackend × Nat :=
  wrapper scenarioCfg c1step2.2.1 c1step2.2.2 argsB PyDict.nil

/-- Scenario step: `f.invalidate(3,2)`. -/
def c1inv : CacheBackend :=
  invalidate scenarioCfg c1step3.2.1 argsB PyDict.nil

/-- Scenario step: `f(3,2)` after the invalidation. -/
def c1step4 : PyVal × CacheBackend × Nat :=
  wrapper scenarioCfg c1inv c1step3.2.2 argsB PyDict.nil

/-- Scenario step: `f(1,2)` at the end. -/
def c1step5 : PyVal × CacheBackend × Nat :=
  wrapper scenarioCfg c1step4.2.1 c1step4.2.2 argsA PyDict.nil

/-- The backend after the first scenario step stored `1`. -/
def c1b1 : CacheBackend :=
  emptyBackend.set (get_cache_key scenarioCfg argsA PyDict.nil) (PyVal.int 1) 60

/-- A callable that legitimately returns `None`, with an invocation
counter as call state. -/
def noneFunc : Nat → PyList → PyDict → PyVal × Nat :=
  fun s _ _ => (PyVal.none, s + 1)

/-- Configuration `@cached(60)` around the `None`-returning callable. -/
def noneCfg : CachedConfig Nat :=
  ⟨60, myFuncName, default_key, noneFunc⟩

/-- The backend after the `None`-returning callable stored its result. -/
def noneB1 : CacheBackend :=
  emptyBackend.set (get_cache_key noneCfg argsA PyDict.nil) PyVal.none 60

/-- A backend holding the falsy value `0` under the scenario key. -/
def zeroBackend : CacheBackend :=
  ⟨[(get_cache_key scenarioCfg argsA PyDict.nil, PyVal.int 0, 60)]⟩

/-! ### The claims -/

/-- C1: with a fixed timeout and no group, the wrapper follows the
per-invocation state machine — on a hit (cached value not `None`) it
returns the cached value without invoking the wrapped callable (state
and backend unchanged), and on a miss it invokes the callable, stores
the result under the derived key with the wrap-time timeout, and returns
it.  Concretely, for `f(a,b) = counter++` wrapped with timeout 60:
`f(1,2) = 1` (miss), `f(1,2) = 1` (hit), `f(3,2) = 2` (miss), and after
`invalidate(3,2)`: `f(3,2) = 3` (recomputed) while `f(1,2)` is still
`1`. -/
theorem claim_C1 :
    (∀ (σ : Type) (cfg : CachedConfig σ) (b : CacheBackend) (s : σ)
      (args : PyList) (kwargs : PyDict),
      (isNone (b.get (get_cache_key cfg args kwargs)) = false →
        wrapper cfg b s args kwargs =
          (b.get (get_cache_key cfg args kwargs), b, s)) ∧
      (b.get (get_cache_key cfg args kwargs) = PyVal.none →
        wrapper cfg b s args kwargs =
          ((cfg.func s args kwargs).1,
           b.set (get_cache_key cfg args kwargs) (cfg.func s args kwargs).1
             cfg.timeout,
           (cfg.func s args kwargs).2))) ∧
    (c1step1.1 = PyVal.int 1 ∧ c1step2.1 = PyVal.int 1 ∧
     c1step3.1 = PyVal.int 2 ∧ c1step4.1 = PyVal.int 3 ∧
     c1step5.1 = PyVal.int 1) := by
  constructor
  · intro σ cfg b s args kwargs
    constructor
    · intro h
      simp only [get_cache_key] at h ⊢
      simp [wrapper, h]
    · intro h
      simp only [get_cache_key] at h ⊢
      simp [wrapper, h, isNone]
  · exact ⟨rfl, rfl, rfl, rfl, rfl⟩

/-- Witness for C1: the universally quantified state machine applied to
the scenario configuration — a concrete miss on the flushed cache and a
concrete hit on the resulting cache. -/
theorem claim_C1_witness :
    wrapper scenarioCfg emptyBackend 0 argsA PyDict.nil =
      (PyVal.int 1, c1b1, 1) ∧
    wrapper scenarioCfg c1b1 1 argsA PyDict.nil = (PyVal.int 1, c1b1, 1) := by
  constructor
  · exact (claim_C1.1 Nat scenarioCfg emptyBackend 0 argsA PyDict.nil).2 rfl
  · exact (claim_C1.1 Nat scenarioCfg c1b1 1 argsA PyDict.nil).1 rfl

/-- C2: for every wrapped callable and every argument list the cache key
is `PREFIX` (the literal `[cached]`), the resolved function identity,
and the serialized argument signature in parentheses, and the assembled
string goes through the key sanitizer before any backend use. -/
theorem claim_C2 (σ : Type) (cfg : CachedConfig σ) (args : PyList)
    (kwargs : PyDict) :
    get_cache_key cfg args kwargs =
      sanitize_memcached_key
        ("[cached]" ++ cfg.fn_key_str ++ "(" ++
          serialize (cfg.key args kwargs) ++ ")") 250 ∧
    PREFIX = "[cached]" :=
  ⟨rfl, rfl⟩

set_option maxRecDepth 40000 in
/-- C3: evaluation of the code at the failing input.  The claim says the
over-length result is the first `max_length - 33` filtered characters, a
separator, then the 32-character md5 hexdigest (40 characters total for
`max_length = 40`); the code instead returns the bare 32-character
hexdigest, because the Python-3 branch returns early and the truncation
line is dead.  This contradicts the function's own docstring
("replacing the key tail with md5 hash"). -/
theorem claim_C3 :
    sanitize_memcached_key longKey50 40 = digest50 ∧
    (sanitize_memcached_key longKey50 40).length = 32 ∧
    (filter_control longKey50).length = 50 ∧
    sanitize_memcached_key longKey50 40 ≠
      (filter_control longKey50).take 7 ++ "-" ++
        md5hex (strUtf8 (filter_control longKey50)) := by
  refine ⟨rfl, rfl, rfl, by decide⟩

/-- C4: for `max_length ≥ 34` the sanitized key never exceeds
`max_length`. -/
theorem claim_C4 (s : String) (L : Nat) (h : 34 ≤ L) :
    (sanitize_memcached_key s L).length ≤ L := by
  simp only [sanitize_memcached_key]
  split
  · rw [md5hex_length]; omega
  · omega

/-- Witness for C4 at a concrete input and bound. -/
theorem claim_C4_witness :
    34 ≤ 40 ∧ (sanitize_memcached_key abcStr 40).length ≤ 40 :=
  ⟨by decide, claim_C4 abcStr 40 (by decide)⟩

/-- C5: no character of a sanitized key has a code point in `[0, 32]` or
equal to `127`: the filter strips them and the hexdigest branch emits
only hexadecimal digit characters. -/
theorem claim_C5 (s : String) (L : Nat) (c : Char)
    (hc : c ∈ (sanitize_memcached_key s L).toList) :
    32 < c.toNat ∧ c.toNat ≠ 127 := by
  simp only [sanitize_memcached_key] at hc
  by_cases hL : L < (filter_control s).length
  · rw [if_pos hL] at hc
    exact hexDigits_not_control c (md5hex_chars _ c hc)
  · rw [if_neg hL] at hc
    have hc' : c ∈ s.toList.filter (fun c => !(CONTROL_CHARACTERS.contains c)) :=
      hc
    have h2 : (!(CONTROL_CHARACTERS.contains c)) = true :=
      (List.mem_filter.mp hc').2
    by_contra hcon
    push_neg at hcon
    have hmem : c ∈ CONTROL_CHARACTERS := by
      apply ctrl_mem
      rcases Nat.lt_or_ge 32 c.toNat with h | h
      · exact Or.inr (hcon h)
      · exact Or.inl h
    have hcontains : CONTROL_CHARACTERS.contains c = true :=
      List.elem_iff.mpr hmem
    rw [hcontains] at h2
    exact absurd h2 (by decide)

/-- Witness for C5: the character `a` survives sanitization and indeed
has a code point above 32 and different from 127. -/
theorem claim_C5_witness : 32 < Char.toNat 'a' ∧ Char.toNat 'a' ≠ 127 :=
  claim_C5 aKey 250 'a' (by decide)

/-- C6: on a cold key (no entry in the backend) `require_cache` raises
`NoCachedValueException`, and its result never depends on the wrapped
callable — two configurations differing only in the callable give the
same result, so the call count is unchanged by the failed read. -/
theorem claim_C6 (σ : Type) (cfg : CachedConfig σ) (b : CacheBackend)
    (args : PyList) (kwargs : PyDict) :
    (List.find? (fun e => e.1 == get_cache_key cfg args kwargs) b.store =
        Option.none →
      require_cache cfg b args kwargs =
        Except.error NoCachedValueException.mk) ∧
    (∀ f g : σ → PyList → PyDict → PyVal × σ,
      require_cache ⟨cfg.timeout, cfg.fn_key_str, cfg.key, f⟩ b args kwargs =
        require_cache ⟨cfg.timeout, cfg.fn_key_str, cfg.key, g⟩ b args kwargs) := by
  constructor
  · intro h
    simp only [get_cache_key] at h
    simp [require_cache, CacheBackend.get, h, pyTruthy]
  · intro f g
    rfl

/-- Witness for C6: the flushed backend is cold for the scenario key, so
the cache-only read raises. -/
theorem claim_C6_witness :
    require_cache scenarioCfg emptyBackend argsA PyDict.nil =
      Except.error NoCachedValueException.mk :=
  (claim_C6 Nat scenarioCfg emptyBackend argsA PyDict.nil).1 rfl

/-- C7: a stored `None` is indistinguishable from a miss: when the
wrapped callable returns `None` at some arguments, a call on a backend
whose read yields the `None` sentinel takes the miss path and stores
`None`; the stored entry again reads back as `None`, so the next call
again invokes the callable (its state advances) and stores again. -/
theorem claim_C7 (σ : Type) (cfg : CachedConfig σ) (b : CacheBackend) (s : σ)
    (args : PyList) (kwargs : PyDict)
    (hf : ∀ s' : σ, (cfg.func s' args kwargs).1 = PyVal.none)
    (hb : b.get (get_cache_key cfg args kwargs) = PyVal.none) :
    wrapper cfg b s args kwargs =
      (PyVal.none,
       b.set (get_cache_key cfg args kwargs) PyVal.none cfg.timeout,
       (cfg.func s args kwargs).2) ∧
    (b.set (get_cache_key cfg args kwargs) PyVal.none cfg.timeout).get
        (get_cache_key cfg args kwargs) = PyVal.none ∧
    wrapper cfg (b.set (get_cache_key cfg args kwargs) PyVal.none cfg.timeout)
        ((cfg.func s args kwargs).2) args kwargs =
      (PyVal.none,
       (b.set (get_cache_key cfg args kwargs) PyVal.none cfg.timeout).set
         (get_cache_key cfg args kwargs) PyVal.none cfg.timeout,
       (cfg.func ((cfg.func s args kwargs).2) args kwargs).2) := by
  have hset : (b.set (get_cache_key cfg args kwargs) PyVal.none cfg.timeout).get
      (get_cache_key cfg args kwargs) = PyVal.none :=
    CacheBackend.get_set_self b _ PyVal.none cfg.timeout
  refine ⟨?_, hset, ?_⟩
  · simp only [get_cache_key] at hb ⊢
    simp [wrapper, hb, isNone, hf s]
  · simp only [get_cache_key] at hset ⊢
    simp [wrapper, hset, isNone, hf ((cfg.func s args kwargs).2)]

/-- Witness for C7: the `None`-returning callable is invoked by both
calls — its invocation counter reaches 2 — and the value is re-stored
each time. -/
theorem claim_C7_witness :
    wrapper noneCfg emptyBackend 0 argsA PyDict.nil =
      (PyVal.none, noneB1, 1) ∧
    wrapper noneCfg noneB1 1 argsA PyDict.nil =
      (PyVal.none,
       noneB1.set (get_cache_key noneCfg argsA PyDict.nil) PyVal.none 60,
       2) := by
  have h := claim_C7 Nat noneCfg emptyBackend 0 argsA PyDict.nil
    (fun s' => rfl) rfl
  exact ⟨h.1, h.2.2⟩

set_option maxRecDepth 40000 in
/-- C8 counterexample: with `max_length = 10` (so `max_length - 33 ≤ 0`)
and a 12-character input, the sanitizer does not raise any configuration
error — it returns the bare 32-character hexdigest, which itself
violates the length bound. -/
theorem claim_C8_counterexample :
    (sanitize_memcached_key shortKey12 10).length = 32 ∧
    ¬((sanitize_memcached_key shortKey12 10).length ≤ 10) := by
  exact ⟨rfl, by decide⟩

/-- C8 as amended: for `max_length ≤ 33` the sanitizer does not fail;
whenever the filtered string is longer than `max_length` it returns the
32-character md5 hexdigest of the filtered string (so the result may
exceed `max_length`), and the negative-length slice is unreachable. -/
theorem claim_C8_amended (s : String) (L : Nat) (_hL : L ≤ 33)
    (hlen : L < (filter_control s).length) :
    sanitize_memcached_key s L = md5hex (strUtf8 (filter_control s)) ∧
    (sanitize_memcached_key s L).length = 32 := by
  have heq : sanitize_memcached_key s L = md5hex (strUtf8 (filter_control s)) := by
    simp only [sanitize_memcached_key]
    rw [if_pos hlen]
  exact ⟨heq, heq ▸ md5hex_length _⟩

/-- Witness for the amended C8 at `max_length = 10`. -/
theorem claim_C8_witness :
    10 ≤ 33 ∧
    (sanitize_memcached_key shortKey12 10 =
        md5hex (strUtf8 (filter_control shortKey12)) ∧
      (sanitize_memcached_key shortKey12 10).length = 32) :=
  ⟨by decide, claim_C8_amended shortKey12 10 (by decide) (by decide)⟩

/-- C9: the five public operations share one key derivation: for fixed
arguments, `invalidate` deletes exactly at `get_cache_key`'s key,
`force_recalc` and the wrapper store at it, `require_cache` and the
wrapper read at it — and so invalidation makes the wrapper's next read
of that very key a miss. -/
theorem claim_C9 (σ : Type) (cfg : CachedConfig σ) (b : CacheBackend) (s : σ)
    (args : PyList) (kwargs : PyDict) :
    invalidate cfg b args kwargs = b.delete (get_cache_key cfg args kwargs) ∧
    force_recalc cfg b s args kwargs =
      ((cfg.func s args kwargs).1,
       b.set (get_cache_key cfg args kwargs) (cfg.func s args kwargs).1
         cfg.timeout,
       (cfg.func s args kwargs).2) ∧
    require_cache cfg b args kwargs =
      (if pyTruthy (b.get (get_cache_key cfg args kwargs))
        then Except.ok (b.get (get_cache_key cfg args kwargs))
        else Except.error NoCachedValueException.mk) ∧
    wrapper cfg b s args kwargs =
      (if isNone (b.get (get_cache_key cfg args kwargs))
        then ((cfg.func s args kwargs).1,
          b.set (get_cache_key cfg args kwargs) (cfg.func s args kwargs).1
            cfg.timeout,
          (cfg.func s args kwargs).2)
        else (b.get (get_cache_key cfg args kwargs), b, s)) ∧
    (invalidate cfg b args kwargs).get (get_cache_key cfg args kwargs) =
      PyVal.none :=
  ⟨rfl, rfl, rfl, rfl, CacheBackend.get_delete_self b _⟩

/-- C10: a present but falsy non-`None` value (such as `0`) makes
`require_cache` raise even though the wrapper treats the same entry as a
hit and returns it without recomputing — the two operations use
different miss tests (truthiness versus an is-`None` check). -/
theorem claim_C10 (σ : Type) (cfg : CachedConfig σ) (b : CacheBackend) (s : σ)
    (args : PyList) (kwargs : PyDict)
    (hn : isNone (b.get (get_cache_key cfg args kwargs)) = false)
    (ht : pyTruthy (b.get (get_cache_key cfg args kwargs)) = false) :
    require_cache cfg b args kwargs = Except.error NoCachedValueException.mk ∧
    wrapper cfg b s args kwargs =
      (b.get (get_cache_key cfg args kwargs), b, s) := by
  simp only [get_cache_key] at hn ht ⊢
  constructor
  · simp [require_cache, ht]
  · simp [wrapper, hn]

/-- Witness for C10: with `0` cached under the scenario key,
`require_cache` raises while the wrapper serves the cached `0`. -/
theorem claim_C10_witness :
    require_cache scenarioCfg zeroBackend argsA PyDict.nil =
      Except.error NoCachedValueException.mk ∧
    wrapper scenarioCfg zeroBackend 0 argsA PyDict.nil =
      (PyVal.int 0, zeroBackend, 0) := by
  have h := claim_C10 Nat scenarioCfg zeroBackend 0 argsA PyDict.nil rfl rfl
  exact ⟨h.1, h.2⟩
